import Mathlib

/-!
Verification of the rubric evaluation engine.

Shallow embedding, in Lean 4, of the core logic of the automatic rubric
grading system: the Chilean grade-scale converter and score aggregation
(`src/kedro_evaluator.py`), the LLM response parser with its deterministic
fallback and the grade-weighted aggregation (`src/rubrica_evaluator.py`),
the batch orchestrator (`scripts/evaluate_batch.py`) and the monitoring
agent (`src/agents/monitoring_agent.py`).

Real numbers of the source (Python floats) are modelled as exact rationals
(`ℚ`); machine floating-point rounding is outside the scope of the model.
Wall-clock timestamps and the external hosting/LLM network collaborators
are modelled as explicit parameters (an `Except`/`Option` outcome or an
abstract decoding function), never as hidden state.
-/

/-! ## Grade scale (`kedro_evaluator.py`) -/

/-- The stepped Chilean grade-scale table of
`KedroEvaluator._porcentaje_a_nota_chilena`: `(threshold percentage, grade)`
pairs in descending threshold order, exactly as the `escala` list in the
source.  `EvaluacionKedro.calcular_nota_escala_chilena` iterates
`sorted(escala.items(), reverse=True)` over the same pairs, which is this
same descending list. -/
def escalaChilena : List (ℚ × ℚ) :=
  [(100, 7), (90, 13/2), (80, 6), (70, 11/2),
   (60, 5), (50, 9/2), (40, 4), (30, 7/2),
   (20, 3), (10, 2), (0, 1)]

/-- The lookup loop shared by `_porcentaje_a_nota_chilena` and
`calcular_nota_escala_chilena`: return the grade of the first threshold the
percentage reaches (`if porcentaje >= umbral: return nota`), defaulting to
`1.0` when the loop falls through. -/
def notaDesdeEscala : List (ℚ × ℚ) → ℚ → ℚ
  | [], _ => 1
  | (umbral, nota) :: resto, p => if umbral ≤ p then nota else notaDesdeEscala resto p

/-- `KedroEvaluator._porcentaje_a_nota_chilena`. -/
def porcentajeANotaChilena (porcentaje : ℚ) : ℚ :=
  notaDesdeEscala escalaChilena porcentaje

/-- `EvaluacionKedro.calcular_nota_escala_chilena` (same table, same loop,
applied to the stored `porcentaje_total`). -/
def calcularNotaEscalaChilena (porcentajeTotal : ℚ) : ℚ :=
  notaDesdeEscala escalaChilena porcentajeTotal

/-! ## KedroEvaluator pipeline (`kedro_evaluator.py`) -/

/-- Python `sub in s` on strings: substring containment. -/
def pyInStr (sub s : String) : Bool := decide (sub.toList <:+: s.toList)

/-- Python `int(x)` on a number: truncation toward zero. -/
def pyInt (q : ℚ) : ℤ := if 0 ≤ q then ⌊q⌋ else ⌈q⌉

/-- Python `s.lower()`, character-wise. -/
def pyLower (s : String) : String := String.mk (s.toList.map Char.toLower)

/-- One criterion of the rubric definition as consumed by
`KedroEvaluator._evaluar_criterio` (only `nombre` and `ponderacion` are read
there). -/
structure CriterioKedro where
  nombre : String
  ponderacion : ℚ
deriving Repr, DecidableEq

/-- The per-criterion result dict built at the end of
`KedroEvaluator._evaluar_criterio` (lines 504–512). -/
structure CriterioEvaluado where
  nombre : String
  ponderacion : ℚ
  puntuacion : ℚ
  puntuacionPonderada : ℚ
  notaCriterio : ℚ
  evidencias : List String
  retroalimentacion : String
deriving Repr, DecidableEq

/-- The `estructura` dict produced by
`KedroProjectAnalyzer.analizar_estructura_kedro`.  Its contents come from the
external hosting API; the evaluator consumes it read-only. -/
structure Estructura where
  tieneEstructuraKedro : Bool
  directoriosPrincipales : List String
  archivosConfiguracion : List String
  pipelinesEncontrados : List String
  datasetsConfigurados : ℕ
  notebooksCrispDm : List String
  errores : List String
deriving Repr, DecidableEq

/-- The reproducibility checks dict of
`KedroProjectAnalyzer.verificar_reproducibilidad` (seven boolean checks, in
the insertion order of the source dict). -/
structure Reproducibilidad where
  tieneRequirements : Bool
  tieneReadme : Bool
  tieneGitignore : Bool
  tieneEnvExample : Bool
  tieneTests : Bool
  usaParametros : Bool
  tieneLogging : Bool
deriving Repr, DecidableEq

/-- `reproducibilidad.items()` in the dict's insertion order. -/
def Reproducibilidad.items (r : Reproducibilidad) : List (String × Bool) :=
  [("tiene_requirements", r.tieneRequirements), ("tiene_readme", r.tieneReadme),
   ("tiene_gitignore", r.tieneGitignore), ("tiene_env_example", r.tieneEnvExample),
   ("tiene_tests", r.tieneTests), ("usa_parametros", r.usaParametros),
   ("tiene_logging", r.tieneLogging)]

/-- The raw score branch of `KedroEvaluator._evaluar_criterio`
(lines 427–499): the 0–100 score chosen for one criterion from the analysed
repository structure. -/
def puntuacionCriterio (nombre : String) (e : Estructura) (r : Reproducibilidad) : ℚ :=
  if pyInStr "Estructura y Configuración" nombre then
    if e.tieneEstructuraKedro then
      if e.errores.length = 0 then 100 else 80
    else
      if 2 ≤ e.directoriosPrincipales.length then 40 else 20
  else if pyInStr "Catálogo de Datos" nombre then
    if 3 ≤ e.datasetsConfigurados then
      (if 3 < e.datasetsConfigurados then 100 else 80)
    else if e.datasetsConfigurados = 2 then 60
    else if e.datasetsConfigurados = 1 then 40
    else 20
  else if pyInStr "Pipelines" nombre then
    if 3 ≤ e.pipelinesEncontrados.length then 100
    else if e.pipelinesEncontrados.length = 2 then 80
    else if e.pipelinesEncontrados.length = 1 then 60
    else 20
  else if pyInStr "Documentación" nombre then
    if r.tieneReadme then
      if 3 ≤ e.notebooksCrispDm.length then 100
      else if 2 ≤ e.notebooksCrispDm.length then 80
      else 60
    else 20
  else if pyInStr "Reproducibilidad" nombre then
    let checksPasados := (r.items.filter (fun kv => kv.2)).length
    (pyInt ((checksPasados : ℚ) / (r.items.length : ℚ) * 100) : ℚ)
  else
    if e.tieneEstructuraKedro then 60 else 40

/-- The evidence list chosen per branch of `_evaluar_criterio`. -/
def evidenciasCriterio (nombre : String) (e : Estructura) (r : Reproducibilidad) : List String :=
  if pyInStr "Estructura y Configuración" nombre then
    e.directoriosPrincipales ++ e.archivosConfiguracion
  else if pyInStr "Catálogo de Datos" nombre then
    [toString e.datasetsConfigurados ++ " datasets configurados"]
  else if pyInStr "Pipelines" nombre then
    e.pipelinesEncontrados
  else if pyInStr "Documentación" nombre then
    e.notebooksCrispDm
  else if pyInStr "Reproducibilidad" nombre then
    (r.items.filter (fun kv => kv.2)).map (fun kv => kv.1)
  else []

/-- The feedback text chosen per branch of `_evaluar_criterio`.  The
fixed-point decimal rendering of Python f-strings is idealised as the exact
rational rendering; no claim depends on the rendered digits. -/
def retroalimentacionCriterio (nombre : String) (e : Estructura) (r : Reproducibilidad) : String :=
  if pyInStr "Estructura y Configuración" nombre then
    "Estructura " ++
      (if (80:ℚ) ≤ puntuacionCriterio nombre e r then "completa" else "incompleta") ++ ". " ++
      (if e.errores ≠ [] then
        "Problemas encontrados: " ++ String.intercalate ", " (e.errores.take 3) else "")
  else if pyInStr "Catálogo de Datos" nombre then
    "Se encontraron " ++ toString e.datasetsConfigurados ++ " datasets. " ++
      (if e.datasetsConfigurados < 3 then "Se requieren mínimo 3 datasets." else "")
  else if pyInStr "Pipelines" nombre then
    "Pipelines encontrados: " ++
      (if e.pipelinesEncontrados ≠ [] then
        String.intercalate ", " e.pipelinesEncontrados else "ninguno")
  else if pyInStr "Documentación" nombre then
    "Notebooks CRISP-DM: " ++ toString e.notebooksCrispDm.length ++ "/3"
  else if pyInStr "Reproducibilidad" nombre then
    "Verificaciones de reproducibilidad: " ++
      toString (r.items.filter (fun kv => kv.2)).length ++ "/" ++ toString r.items.length
  else "Evaluación basada en estructura general"

/-- The result-dict constructor at the end of `_evaluar_criterio`
(lines 504–512): `puntuacion_ponderada = puntuacion * ponderacion` and
`nota_criterio = self._porcentaje_a_nota_chilena(puntuacion)`. -/
def criterioEvaluadoDe (nombre : String) (ponderacion puntuacion : ℚ)
    (evidencias : List String) (retroalimentacion : String) : CriterioEvaluado :=
  { nombre := nombre
    ponderacion := ponderacion
    puntuacion := puntuacion
    puntuacionPonderada := puntuacion * ponderacion
    notaCriterio := porcentajeANotaChilena puntuacion
    evidencias := evidencias
    retroalimentacion := retroalimentacion }

/-- `KedroEvaluator._evaluar_criterio`. -/
def evaluarCriterio (c : CriterioKedro) (e : Estructura) (r : Reproducibilidad) :
    CriterioEvaluado :=
  criterioEvaluadoDe c.nombre c.ponderacion (puntuacionCriterio c.nombre e r)
    (evidenciasCriterio c.nombre e r) (retroalimentacionCriterio c.nombre e r)

/-- `KedroEvaluator._calcular_bonificaciones`: +3 points when some
configuration file mentions `kedro-viz` (the source checks the substring in
the `str()` rendering of the file list, which holds exactly when some entry
contains it), +5 points when tests are present. -/
def calcularBonificaciones (e : Estructura) (r : Reproducibilidad) : List (String × ℚ) :=
  (if e.archivosConfiguracion.any (fun a => pyInStr "kedro-viz" a) then
    [("kedro_viz", (3:ℚ))] else []) ++
  (if r.tieneTests then [("tests_unitarios", (5:ℚ))] else [])

/-- `KedroEvaluator._calcular_penalizaciones`: −10 points per missing dataset
below three, −20 points when the Kedro structure is absent. -/
def calcularPenalizaciones (e : Estructura) : List (String × ℚ) :=
  (if 0 < max 0 (3 - (e.datasetsConfigurados : ℤ)) then
    [("datasets_faltantes", ((max 0 (3 - (e.datasetsConfigurados : ℤ)) : ℤ) : ℚ) * 10)]
   else []) ++
  (if ¬ e.tieneEstructuraKedro then [("sin_estructura_kedro", (20:ℚ))] else [])

/-- The weighted roll-up of `KedroEvaluator.evaluar_proyecto` lines 364–372:
`puntuacion_total = Σ puntuacion_ponderada` over the evaluated criteria. -/
def puntuacionTotalDe (criterios : List CriterioEvaluado) : ℚ :=
  criterios.foldl (fun acc c => acc + c.puntuacionPonderada) 0

/-- Sum of the values of a named-delta dict (`sum(bonificaciones.values())`). -/
def sumaDeltas (deltas : List (String × ℚ)) : ℚ :=
  deltas.foldl (fun acc kv => acc + kv.2) 0

/-- `KedroEvaluator._identificar_fortalezas`. -/
def identificarFortalezas (criterios : List CriterioEvaluado) : List String :=
  (criterios.filter (fun c => (80:ℚ) ≤ c.puntuacion)).map
    (fun c => "✓ " ++ c.nombre ++ ": Excelente implementación")

/-- `KedroEvaluator._identificar_areas_mejora`. -/
def identificarAreasMejora (criterios : List CriterioEvaluado) : List String :=
  (criterios.filter (fun c => c.puntuacion < (60:ℚ))).map
    (fun c => "⚠ " ++ c.nombre ++ ": Necesita mejoras significativas")

/-- `KedroEvaluator._generar_recomendaciones`. -/
def generarRecomendaciones (areasMejora : List String) : List String :=
  areasMejora.filterMap (fun area =>
    if pyInStr "Estructura" area then some "📁 Revisar la estructura de directorios de Kedro"
    else if pyInStr "Catálogo" area then some "📊 Agregar más datasets al catálogo (mínimo 3)"
    else if pyInStr "Pipeline" area then some "🔧 Implementar pipelines para cada fase CRISP-DM"
    else if pyInStr "Documentación" area then some "📝 Completar notebooks y documentación"
    else if pyInStr "Reproducibilidad" area then
      some "🔄 Agregar requirements.txt y mejorar reproducibilidad"
    else none)

/-- `KedroEvaluator._generar_resumen` (numeric rendering idealised). -/
def generarResumen (nota porcentaje : ℚ) : String :=
  let nivel :=
    if (6:ℚ) ≤ nota then "Excelente"
    else if (5:ℚ) ≤ nota then "Bueno"
    else if (4:ℚ) ≤ nota then "Suficiente"
    else "Insuficiente"
  "Proyecto evaluado con nota " ++ toString nota ++ " (" ++ toString porcentaje ++ "%). " ++
    "Nivel de desempeño: " ++ nivel ++ ". " ++
    (if (4:ℚ) ≤ nota then "APROBADO" else "REPROBADO") ++ "."

/-- One complete evaluation record (`EvaluacionKedro`).  The wall-clock
fields (`fecha_evaluacion`, `tiempo_evaluacion`, `version_evaluador`) and the
external code-metrics dict (`metricas_codigo`) are omitted from the model; no
claim mentions them. -/
structure EvaluacionKedro where
  estudianteNombre : String
  estudiantePareja : Option String
  repositorioUrl : String
  notaFinal : ℚ
  porcentajeTotal : ℚ
  estado : String
  criteriosEvaluados : List CriterioEvaluado
  bonificacionesAplicadas : List (String × ℚ)
  penalizacionesAplicadas : List (String × ℚ)
  resumenGeneral : String
  fortalezas : List String
  areasMejora : List String
  recomendaciones : List String
deriving Repr, DecidableEq

/-- `KedroEvaluator._crear_evaluacion_error`: the synthetic evaluation built
when the repository cannot be accessed. -/
def crearEvaluacionError (repoUrl estudiante error : String) : EvaluacionKedro :=
  { estudianteNombre := estudiante
    estudiantePareja := none
    repositorioUrl := repoUrl
    notaFinal := 1
    porcentajeTotal := 0
    estado := "ERROR"
    criteriosEvaluados := []
    bonificacionesAplicadas := []
    penalizacionesAplicadas := []
    resumenGeneral := "Error al evaluar: " ++ error
    fortalezas := []
    areasMejora := ["No se pudo acceder al repositorio"]
    recomendaciones := ["Verificar que el repositorio sea público y la URL sea correcta"] }

/-- `KedroEvaluator.evaluar_proyecto`.  The `try: self.github.get_repo(...)`
step and the repository analyses it feeds (hosting-API collaborators) are
modelled by the `acceso` argument: `Except.error e` is the caught
`GithubException`, `Except.ok` carries the analysed structure and
reproducibility checks.  The rubric is the criterion list of
`create_kedro_ml_rubrica()`. -/
def evaluarProyecto (acceso : Except String (Estructura × Reproducibilidad))
    (rubrica : List CriterioKedro) (repoUrl estudianteNombre : String)
    (estudiantePareja : Option String) (aplicarBonificaciones : Bool) : EvaluacionKedro :=
  match acceso with
  | .error e => crearEvaluacionError repoUrl estudianteNombre e
  | .ok (estructura, repro) =>
    let criteriosEvaluados := rubrica.map (fun c => evaluarCriterio c estructura repro)
    let puntuacionBase := puntuacionTotalDe criteriosEvaluados
    let bonificaciones :=
      if aplicarBonificaciones then calcularBonificaciones estructura repro else []
    let penalizaciones :=
      if aplicarBonificaciones then calcularPenalizaciones estructura else []
    let puntuacionTotal := puntuacionBase + sumaDeltas bonificaciones - sumaDeltas penalizaciones
    let porcentajeFinal := max 0 (min 100 puntuacionTotal)
    let notaFinal := porcentajeANotaChilena porcentajeFinal
    let areasMejora := identificarAreasMejora criteriosEvaluados
    { estudianteNombre := estudianteNombre
      estudiantePareja := estudiantePareja
      repositorioUrl := repoUrl
      notaFinal := notaFinal
      porcentajeTotal := porcentajeFinal
      estado := if (4:ℚ) ≤ notaFinal then "APROBADO" else "REPROBADO"
      criteriosEvaluados := criteriosEvaluados
      bonificacionesAplicadas := bonificaciones
      penalizacionesAplicadas := penalizaciones
      resumenGeneral := generarResumen notaFinal porcentajeFinal
      fortalezas := identificarFortalezas criteriosEvaluados
      areasMejora := areasMejora
      recomendaciones := generarRecomendaciones areasMejora }

/-- The ten criteria of `create_kedro_ml_rubrica()`
(`examples/rubrica_kedro.py`): each with weight `0.10`. -/
def rubricaKedroML : List CriterioKedro :=
  [⟨"Estructura y Configuración del Proyecto Kedro", 1/10⟩,
   ⟨"Implementación del Catálogo de Datos", 1/10⟩,
   ⟨"Desarrollo de Nodos y Funciones", 1/10⟩,
   ⟨"Construcción de Pipelines", 1/10⟩,
   ⟨"Análisis Exploratorio de Datos - EDA", 1/10⟩,
   ⟨"Limpieza y Tratamiento de Datos", 1/10⟩,
   ⟨"Transformación y Feature Engineering", 1/10⟩,
   ⟨"Identificación de Targets para ML", 1/10⟩,
   ⟨"Documentación y Notebooks", 1/10⟩,
   ⟨"Reproducibilidad y Mejores Prácticas", 1/10⟩]

/-! ## Response parser and fallback engine (`rubrica_evaluator.py`) -/

/-- Decoded JSON values, the output type of Python's `json.loads`.
Booleans are kept separate from numbers so that Python's
`isinstance(x, (int, float))` — which accepts `bool`, a subclass of `int` —
can be modelled faithfully. -/
inductive Json where
  | null : Json
  | bool (b : Bool) : Json
  | num (q : ℚ) : Json
  | str (s : String) : Json
  | arr (xs : List Json) : Json
  | obj (kvs : List (String × Json)) : Json
deriving Repr

/-- Python `data.get(key)`: `None` when `data` is not a dict (the resulting
`AttributeError` is caught by the parser's blanket `except`) or when the key
is absent. -/
def Json.get : Json → String → Option Json
  | .obj kvs, k => (kvs.find? (fun kv => kv.1 = k)).map (fun kv => kv.2)
  | _, _ => none

/-- `isinstance(x, (int, float))` plus numeric conversion: Python numbers,
and booleans (`True == 1`, `False == 0`). -/
def Json.asNum : Json → Option ℚ
  | .num q => some q
  | .bool b => some (if b then 1 else 0)
  | _ => none

/-- `isinstance(x, str)`. -/
def Json.asStr : Json → Option String
  | .str s => some s
  | _ => none

/-- `isinstance(x, list)` (element types are not checked by the source). -/
def Json.asList : Json → Option (List Json)
  | .arr xs => some xs
  | _ => none

/-- One per-criterion result (`ResultadoCriterio`).  The source annotates
`evidencias`/`sugerencias` as lists of strings but only validates that they
are lists, so the model keeps them as JSON values. -/
structure ResultadoCriterio where
  criterio : String
  puntuacion : ℤ
  nota : ℚ
  retroalimentacion : String
  evidencias : List Json
  sugerencias : List Json
deriving Repr

/-- The positive-keyword list of
`LLMEvaluator._generate_fallback_evaluation` (fallback score 85). -/
def palabrasPositivas : List String := ["excelente", "muy bien", "perfecto", "completo"]

/-- The middle-quality keyword list of `_generate_fallback_evaluation`
(fallback score 70). -/
def palabrasBuenas : List String := ["bueno", "bien", "adecuado", "correcto"]

/-- The negative-keyword list of `_generate_fallback_evaluation`
(fallback score 30). -/
def palabrasNegativas : List String := ["malo", "incorrecto", "faltante", "error"]

/-- `any(word in response_lower for word in words)`. -/
def contienePalabra (textoLower : String) (palabras : List String) : Bool :=
  palabras.any (fun w => pyInStr w textoLower)

/-- The fallback score of `_generate_fallback_evaluation` (lines 329–338):
default 60, overridden to 85 / 70 / 30 by the three keyword scans on the
lowercased raw response, in that order. -/
def puntuacionFallback (response : String) : ℤ :=
  let lower := pyLower response
  if contienePalabra lower palabrasPositivas then 85
  else if contienePalabra lower palabrasBuenas then 70
  else if contienePalabra lower palabrasNegativas then 30
  else 60

/-- `LLMEvaluator._generate_fallback_evaluation`: keyword-scored result with
grade `1.0 + (puntuacion / 100) * 6.0` (line 340), templated feedback and
suggestions, no evidence.  (The `re.findall` of digits on line 326 is dead
code — its result is never used — and the inner `except` branch that returns
score 50 is unreachable for string inputs, so neither is modelled.) -/
def generateFallbackEvaluation (response criterioNombre : String) : ResultadoCriterio :=
  let puntuacion := puntuacionFallback response
  { criterio := criterioNombre
    puntuacion := puntuacion
    nota := 1 + ((puntuacion : ℚ) / 100) * 6
    retroalimentacion :=
      "El proyecto muestra un nivel de cumplimiento moderado en " ++
        pyLower criterioNombre ++
        ". Se recomienda revisar los aspectos específicos mencionados en la rúbrica para mejorar la implementación."
    evidencias := []
    sugerencias :=
      [.str "Revisar la rúbrica específica para este criterio",
       .str "Consultar ejemplos de buenas prácticas",
       .str "Solicitar retroalimentación adicional si es necesario"] }

/-- The brace-slicing step of `LLMEvaluator._parse_evaluation_response`
(lines 274–283): strip the response, find the first `\x7b` and the last
`\x7d`, and slice the substring; `none` models the `ValueError` raised when
either brace is missing. -/
def sliceJson (response : String) : Option String :=
  let cs := response.trim.toList
  match cs.indexOf? '{', cs.reverse.indexOf? '}' with
  | some start, some revEnd =>
    let stop := cs.length - revEnd
    some (String.mk ((cs.drop start).take (stop - start)))
  | _, _ => none

/-- The character-cleaning step (line 286): keep characters with code point
`≥ 32`, plus newline, tab and carriage return. -/
def limpiarCaracteres (s : String) : String :=
  String.mk (s.toList.filter (fun c => 32 ≤ c.toNat ∨ c ∈ ['\n', '\t', '\r']))

/-- The validation and clamping step of `_parse_evaluation_response`
(lines 292–314): every required field must decode with the right shape,
then `puntuacion = max(0, min(100, int(·)))` and
`nota = max(1.0, min(7.0, float(·)))`.  `none` models the `ValueError`s
raised on a missing or mistyped field. -/
def validarDatosEvaluacion (data : Json) (criterioNombre : String) :
    Option ResultadoCriterio :=
  match (data.get "puntuacion").bind Json.asNum,
        (data.get "nota").bind Json.asNum,
        (data.get "retroalimentacion").bind Json.asStr,
        (data.get "evidencias").bind Json.asList,
        (data.get "sugerencias").bind Json.asList with
  | some p, some n, some retro, some ev, some sug =>
    some { criterio := criterioNombre
           puntuacion := max 0 (min 100 (pyInt p))
           nota := max 1 (min 7 n)
           retroalimentacion := retro
           evidencias := ev
           sugerencias := sug }
  | _, _, _, _, _ => none

/-- `LLMEvaluator._parse_evaluation_response`.  The `json.loads` library call
is the `loads` parameter (an arbitrary decoder: `none` models a
`JSONDecodeError`); every failure of the primary path falls back to
`_generate_fallback_evaluation`, mirroring the blanket `except`. -/
def parseEvaluationResponse (loads : String → Option Json)
    (response criterioNombre : String) : ResultadoCriterio :=
  match sliceJson response with
  | none => generateFallbackEvaluation response criterioNombre
  | some jsonStr =>
    match loads (limpiarCaracteres jsonStr) with
    | none => generateFallbackEvaluation response criterioNombre
    | some data =>
      match validarDatosEvaluacion data criterioNombre with
      | none => generateFallbackEvaluation response criterioNombre
      | some resultado => resultado

/-! ## Grade-weighted aggregation of `RubricaEvaluator.evaluate_repository` -/

/-- One rubric criterion as loaded by
`RubricaEvaluator.load_rubrica_from_dict` (the fields the final-grade loop
reads). -/
structure CriterioRubrica where
  nombre : String
  ponderacion : ℚ
deriving Repr, DecidableEq

/-- Python `round(x, 2)` idealised over `ℚ` (round-half-to-even of binary
floats is idealised as round-to-nearest; every value this development
evaluates is exact at two decimals, where all conventions agree). -/
def round2 (q : ℚ) : ℚ := (round (q * 100) : ℤ) / 100

/-- The per-result increment of the final-grade loop of
`RubricaEvaluator.evaluate_repository` (lines 420–424):
`criterio = next((c for c in rubrica if c.nombre == resultado.criterio), None)`
and, when found, `resultado.nota * criterio.ponderacion` — an
already-converted per-criterion grade times the weight.  A result without a
matching rubric entry contributes nothing. -/
def contribucionNota (rubrica : List CriterioRubrica) (r : ResultadoCriterio) : ℚ :=
  match rubrica.find? (fun c => c.nombre = r.criterio) with
  | some c => r.nota * c.ponderacion
  | none => 0

/-- The accumulation `nota_total += resultado.nota * criterio.ponderacion`
over all results (lines 419–424). -/
def notaTotalRubrica (rubrica : List CriterioRubrica)
    (resultados : List ResultadoCriterio) : ℚ :=
  resultados.foldl (fun acc r => acc + contribucionNota rubrica r) 0

/-- `nota_final = round(nota_total, 2)` (line 436). -/
def notaFinalRubrica (rubrica : List CriterioRubrica)
    (resultados : List ResultadoCriterio) : ℚ :=
  round2 (notaTotalRubrica rubrica resultados)

/-- The score-weighted increment the specification declares canonical:
`score × weight` over the same matched criterion (what
`evaluate_repository` would add if it summed raw scores). -/
def contribucionPuntuacion (rubrica : List CriterioRubrica) (r : ResultadoCriterio) : ℚ :=
  match rubrica.find? (fun c => c.nombre = r.criterio) with
  | some c => (r.puntuacion : ℚ) * c.ponderacion
  | none => 0

/-- The score-weighted percentage under the specification's canonical rule:
`Σ score × weight` over the matched criteria. -/
def porcentajePonderadoRubrica (rubrica : List CriterioRubrica)
    (resultados : List ResultadoCriterio) : ℚ :=
  resultados.foldl (fun acc r => acc + contribucionPuntuacion rubrica r) 0

/-! ## Batch orchestrator (`scripts/evaluate_batch.py`) -/

/-- One roster entry loaded from the CSV. -/
structure Estudiante where
  nombre : String
  pareja : Option String
  repositorio : String
deriving Repr, DecidableEq

/-- `EvaluadorMasivo.evaluar_estudiante`: one unit of work.  The call
`self.evaluador.evaluar_proyecto(...)` (plus the report writing inside the
same `try`) is the `runEval` parameter; `Except.error` models an exception
escaping that call, which the `except Exception` boundary converts to
`(nombre, None)`.  The result saving side effect is external. -/
def evaluarEstudiante (runEval : Estudiante → Except String EvaluacionKedro)
    (estudiante : Estudiante) : String × Option EvaluacionKedro :=
  (estudiante.nombre,
    match runEval estudiante with
    | .ok evaluacion => some evaluacion
    | .error _ => none)

/-- The accounting loop of `EvaluadorMasivo.evaluar_todos`: each completed
unit appends to `evaluaciones_exitosas` or `evaluaciones_fallidas`.  With
`paralelo == 1` the loop visits the roster in input order; with
`paralelo > 1` the `as_completed` drain visits the same units in an
arbitrary completion order, so the function takes the visiting order
(a permutation of the roster) as its argument. -/
def registrarResultado (acc : List (String × EvaluacionKedro) × List String)
    (resultado : String × Option EvaluacionKedro) :
    List (String × EvaluacionKedro) × List String :=
  match resultado with
  | (nombre, some ev) => (acc.1 ++ [(nombre, ev)], acc.2)
  | (nombre, none) => (acc.1, acc.2 ++ [nombre])

/-- The full accounting loop of `evaluar_todos` over the visiting order. -/
def evaluarTodos (runEval : Estudiante → Except String EvaluacionKedro)
    (orden : List Estudiante) : List (String × EvaluacionKedro) × List String :=
  orden.foldl (fun acc est => registrarResultado acc (evaluarEstudiante runEval est)) ([], [])

/-- Sum of a list of rationals (`sum(notas)`). -/
def sumaLista (xs : List ℚ) : ℚ := xs.foldl (· + ·) 0

/-- Python `min` over a nonempty list given as head and tail. -/
def minimoLista (x : ℚ) (xs : List ℚ) : ℚ := xs.foldl min x

/-- Python `max` over a nonempty list given as head and tail. -/
def maximoLista (x : ℚ) (xs : List ℚ) : ℚ := xs.foldl max x

/-- The statistics record built by `EvaluadorMasivo.generar_estadisticas`. -/
structure Estadisticas where
  totalEvaluados : ℕ
  aprobados : ℕ
  reprobados : ℕ
  porcentajeAprobacion : ℚ
  notaPromedio : ℚ
  notaMinima : ℚ
  notaMaxima : ℚ
deriving Repr, DecidableEq

/-- `EvaluadorMasivo.generar_estadisticas`: `none` models the empty dict
returned for an empty success list; otherwise count, pass counts, pass rate
and mean/min/max over `nota_final` of every success. -/
def generarEstadisticas (evaluaciones : List (String × EvaluacionKedro)) :
    Option Estadisticas :=
  match evaluaciones with
  | [] => none
  | ev :: resto =>
    let todas := ev :: resto
    let notas := todas.map (fun p => p.2.notaFinal)
    let aprobados := (todas.filter (fun p => p.2.estado = "APROBADO")).length
    some { totalEvaluados := todas.length
           aprobados := aprobados
           reprobados := todas.length - aprobados
           porcentajeAprobacion := ((aprobados : ℚ) / (todas.length : ℚ)) * 100
           notaPromedio := sumaLista notas / (notas.length : ℚ)
           notaMinima := minimoLista ev.2.notaFinal (resto.map (fun p => p.2.notaFinal))
           notaMaxima := maximoLista ev.2.notaFinal (resto.map (fun p => p.2.notaFinal)) }

/-! ## Monitoring agent (`src/agents/monitoring_agent.py`) -/

/-- One criterion entry of a stored evaluation record, as read by the
monitoring agent (`criterio.get('criterio', '')`,
`criterio.get('retroalimentacion', '')`, `criterio.get('puntuacion', 0)`). -/
structure CriterioRegistro where
  criterio : String
  puntuacion : ℚ
  retroalimentacion : String
deriving Repr, DecidableEq

/-- One stored evaluation record consumed by the monitoring agent.  The
`estudiante_id` and `estudiante` keys may be absent (`Option`), matching the
`dict.get` defaults the source applies to them. -/
structure EvalRegistro where
  estudianteId : Option String
  estudiante : Option String
  repositorio : String
  notaFinal : ℚ
  fechaEvaluacion : String
  criterios : List CriterioRegistro
deriving Repr, DecidableEq

/-- An alert (`Alert` dataclass; the `datetime.now()` timestamp is
omitted). -/
structure Alerta where
  tipo : String
  severidad : String
  titulo : String
  descripcion : String
  estudiante : String
  evidencias : List String
  recomendaciones : List String
deriving Repr, DecidableEq

/-- `severity_order.get(x.severidad, 0)` in `generate_alerts`. -/
def severidadRango (s : String) : ℕ :=
  if s = "critica" then 4
  else if s = "alta" then 3
  else if s = "media" then 2
  else if s = "baja" then 1
  else 0

/-- `sorted(..., key=fecha, reverse=True)`: stable descending sort by the
evaluation date string. -/
def ordenarPorFechaDesc (evals : List EvalRegistro) : List EvalRegistro :=
  evals.mergeSort (fun a b => decide (b.fechaEvaluacion ≤ a.fechaEvaluacion))

/-- `MonitoringAgent._analyze_student_alerts`: the academic-risk rules on the
latest grade (`< 2.0` critical, else `< 3.0` high), the rapid-degradation
rule (previous − latest `> 1.0`), and the stagnation rule (spread of the
last three grades `< 0.2`), appended in source order.  Numeric rendering in
titles/evidence is idealised as exact rational rendering. -/
def analizarAlertasEstudiante (studentId : String) (evaluations : List EvalRegistro) :
    List Alerta :=
  match ordenarPorFechaDesc evaluations with
  | [] => []
  | latest :: resto =>
    let studentName := latest.estudiante.getD studentId
    let latestNota := latest.notaFinal
    let riesgo : List Alerta :=
      if latestNota < 2 then
        [{ tipo := "riesgo_academico", severidad := "critica"
           titulo := "Nota crítica: " ++ toString latestNota ++ "/7.0"
           descripcion := "El estudiante " ++ studentName ++
             " tiene una nota muy baja que requiere atención inmediata."
           estudiante := studentName
           evidencias := ["Nota actual: " ++ toString latestNota ++ "/7.0"]
           recomendaciones := ["Reunión urgente con el estudiante",
             "Revisar dificultades específicas",
             "Considerar apoyo académico adicional"] }]
      else if latestNota < 3 then
        [{ tipo := "riesgo_academico", severidad := "alta"
           titulo := "Nota baja: " ++ toString latestNota ++ "/7.0"
           descripcion := "El estudiante " ++ studentName ++
             " tiene una nota por debajo del umbral mínimo."
           estudiante := studentName
           evidencias := ["Nota actual: " ++ toString latestNota ++ "/7.0"]
           recomendaciones := ["Seguimiento personalizado",
             "Identificar áreas de mejora específicas",
             "Proporcionar recursos adicionales"] }]
      else []
    let degradacion : List Alerta :=
      match resto with
      | [] => []
      | anterior :: _ =>
        let diferencia := anterior.notaFinal - latestNota
        if 1 < diferencia then
          [{ tipo := "progreso", severidad := "alta"
             titulo := "Degradación rápida en el rendimiento"
             descripcion := "El estudiante " ++ studentName ++
               " ha tenido una caída significativa en su rendimiento."
             estudiante := studentName
             evidencias := ["Nota anterior: " ++ toString anterior.notaFinal ++ "/7.0",
               "Nota actual: " ++ toString latestNota ++ "/7.0",
               "Diferencia: -" ++ toString diferencia]
             recomendaciones := ["Investigar causas de la degradación",
               "Revisar carga de trabajo", "Ofrecer apoyo adicional"] }]
        else []
    let estancamiento : List Alerta :=
      match resto with
      | e2 :: e3 :: _ =>
        let notasRecientes := [latestNota, e2.notaFinal, e3.notaFinal]
        let variacion :=
          maximoLista latestNota [e2.notaFinal, e3.notaFinal] -
            minimoLista latestNota [e2.notaFinal, e3.notaFinal]
        if variacion < 1/5 then
          [{ tipo := "progreso", severidad := "media"
             titulo := "Estancamiento en el progreso"
             descripcion := "El estudiante " ++ studentName ++
               " muestra poco progreso en las últimas evaluaciones."
             estudiante := studentName
             evidencias := ["Notas recientes: " ++
                 String.intercalate ", " (notasRecientes.map toString),
               "Variación: " ++ toString variacion]
             recomendaciones := ["Identificar barreras al aprendizaje",
               "Ajustar estrategia de enseñanza",
               "Proporcionar desafíos adicionales"] }]
        else []
      | _ => []
    riesgo ++ degradacion ++ estancamiento

/-- Insertion-ordered dict grouping (`by_student[k].append(v)` /
`criteria_groups[k].append(v)`): append to an existing key's list, else add
the key at the end. -/
def agregarAGrupo {β : Type} (grupos : List (String × List β)) (k : String) (v : β) :
    List (String × List β) :=
  if grupos.any (fun g => g.1 = k) then
    grupos.map (fun g => if g.1 = k then (g.1, g.2 ++ [v]) else g)
  else grupos ++ [(k, [v])]

/-- `eval_data.get('estudiante_id', eval_data.get('repositorio', ''))`. -/
def claveEstudiante (e : EvalRegistro) : String := e.estudianteId.getD e.repositorio

/-- The `by_student` grouping of `generate_alerts`. -/
def agruparPorEstudiante (evals : List EvalRegistro) : List (String × List EvalRegistro) :=
  evals.foldl (fun grupos e => agregarAGrupo grupos (claveEstudiante e) e) []

/-- One entry of a criterion group in `_detect_plagiarism_patterns`. -/
structure EntradaCriterio where
  estudiante : String
  retroalimentacion : String
deriving Repr, DecidableEq

/-- The `criteria_groups` grouping of `_detect_plagiarism_patterns`
(lines 269–283): every (evaluation, criterion) pair keyed by criterion
name. -/
def gruposCriterios (evals : List EvalRegistro) : List (String × List EntradaCriterio) :=
  evals.foldl (fun grupos ev =>
    ev.criterios.foldl (fun g c =>
      agregarAGrupo g c.criterio ⟨ev.estudiante.getD "", c.retroalimentacion⟩) grupos) []

/-- The lowercase word set of a feedback text
(`set(text.lower().split())`): split on whitespace runs, dropping empty
pieces, as a finite set. -/
def conjuntoPalabras (texto : String) : Finset String :=
  ((((pyLower texto).toList.splitOnP Char.isWhitespace).filter
    (fun w => w ≠ [])).map String.mk).toFinset

/-- The similarity of two feedback texts
(`len(words1 & words2) / max(len(words1), len(words2))`). -/
def similitud (t1 t2 : String) : ℚ :=
  ((conjuntoPalabras t1 ∩ conjuntoPalabras t2).card : ℚ) /
    ((max (conjuntoPalabras t1).card (conjuntoPalabras t2).card : ℕ) : ℚ)

/-- One recorded similarity candidate. -/
structure Similitud where
  student1 : String
  student2 : String
  similarity : ℚ
deriving Repr, DecidableEq

/-- The ordered pairs `(i, j)` with `i < j` visited by the nested loops of
`_find_text_similarities`. -/
def paresPosteriores : List α → List (α × α)
  | [] => []
  | x :: xs => xs.map (fun y => (x, y)) ++ paresPosteriores xs

/-- `MonitoringAgent._find_text_similarities`: for every later pair, when
both word sets are nonempty and the similarity exceeds `0.5`, record a
candidate. -/
def encontrarSimilitudes (evaluations : List EntradaCriterio) : List Similitud :=
  (paresPosteriores evaluations).filterMap (fun par =>
    let w1 := conjuntoPalabras par.1.retroalimentacion
    let w2 := conjuntoPalabras par.2.retroalimentacion
    if 0 < w1.card ∧ 0 < w2.card then
      let sim := similitud par.1.retroalimentacion par.2.retroalimentacion
      if 1/2 < sim then some ⟨par.1.estudiante, par.2.estudiante, sim⟩ else none
    else none)

/-- `MonitoringAgent._detect_plagiarism_patterns`: for every criterion group
with at least two entries, every candidate whose similarity exceeds the
`plagio_similarity` threshold `0.8` becomes a `plagio` alert of severity
`alta`. -/
def detectarPatronesPlagio (evals : List EvalRegistro) : List Alerta :=
  (gruposCriterios evals).flatMap (fun grupo =>
    if grupo.2.length < 2 then []
    else
      ((encontrarSimilitudes grupo.2).filter (fun s => 4/5 < s.similarity)).map (fun s =>
        { tipo := "plagio", severidad := "alta"
          titulo := "Posible similitud en proyectos"
          descripcion := "Se detectó similitud alta en el criterio '" ++ grupo.1 ++
            "' entre estudiantes."
          estudiante := s.student1 ++ " y " ++ s.student2
          evidencias := ["Criterio: " ++ grupo.1,
            "Similitud: " ++ toString s.similarity,
            "Estudiantes: " ++ s.student1 ++ ", " ++ s.student2]
          recomendaciones := ["Revisar manualmente los proyectos",
            "Verificar originalidad del trabajo",
            "Aplicar políticas de integridad académica"] }))

/-- `MonitoringAgent.generate_alerts`: per-student alerts, then plagiarism
alerts, sorted by severity rank descending
(`alerts.sort(key=severity_order.get(...), reverse=True)`, a stable
descending sort). -/
def generarAlertas (evals : List EvalRegistro) : List Alerta :=
  let porEstudiante := agruparPorEstudiante evals
  let alertas :=
    (porEstudiante.flatMap (fun g => analizarAlertasEstudiante g.1 g.2)) ++
      detectarPatronesPlagio evals
  alertas.mergeSort (fun a b => decide (severidadRango b.severidad ≤ severidadRango a.severidad))

/-- C2: for every percentage in `[0, 100]` the converter returns the grade of
the greatest table key that is `≤` the input; in particular `100 ↦ 7.0`,
`0 ↦ 1.0` and `65 ↦ 5.0`, and the dataclass method
`calcular_nota_escala_chilena` agrees with `_porcentaje_a_nota_chilena`
everywhere. -/
theorem porcentajeANotaChilena_greatest_key (p : ℚ) (h0 : 0 ≤ p) (h100 : p ≤ 100) :
    (∃ par ∈ escalaChilena, par.1 ≤ p ∧ porcentajeANotaChilena p = par.2 ∧
      ∀ par' ∈ escalaChilena, par'.1 ≤ p → par'.1 ≤ par.1) ∧
    porcentajeANotaChilena 100 = 7 ∧ porcentajeANotaChilena 0 = 1 ∧
    porcentajeANotaChilena 65 = 5 ∧
    calcularNotaEscalaChilena p = porcentajeANotaChilena p := by
  refine ⟨?_, by decide, by decide, by decide, rfl⟩
  rcases le_or_lt 100 p with h1 | h1
  · refine ⟨(100, 7), by norm_num [escalaChilena], h1, ?_, ?_⟩
    · simp [porcentajeANotaChilena, notaDesdeEscala, escalaChilena, h1]
    · rintro ⟨k', g'⟩ h' _
      fin_cases h' <;> norm_num
  rcases le_or_lt 90 p with h2 | h2
  · refine ⟨(90, 13/2), by norm_num [escalaChilena], h2, ?_, ?_⟩
    · simp [porcentajeANotaChilena, notaDesdeEscala, escalaChilena, h1.not_le, h2]
    · rintro ⟨k', g'⟩ h' hle
      fin_cases h' <;> simp_all <;> linarith
  rcases le_or_lt 80 p with h3 | h3
  · refine ⟨(80, 6), by norm_num [escalaChilena], h3, ?_, ?_⟩
    · simp [porcentajeANotaChilena, notaDesdeEscala, escalaChilena, h1.not_le, h2.not_le, h3]
    · rintro ⟨k', g'⟩ h' hle
      fin_cases h' <;> simp_all <;> linarith
  rcases le_or_lt 70 p with h4 | h4
  · refine ⟨(70, 11/2), by norm_num [escalaChilena], h4, ?_, ?_⟩
    · simp [porcentajeANotaChilena, notaDesdeEscala, escalaChilena, h1.not_le, h2.not_le,
        h3.not_le, h4]
    · rintro ⟨k', g'⟩ h' hle
      fin_cases h' <;> simp_all <;> linarith
  rcases le_or_lt 60 p with h5 | h5
  · refine ⟨(60, 5), by norm_num [escalaChilena], h5, ?_, ?_⟩
    · simp [porcentajeANotaChilena, notaDesdeEscala, escalaChilena, h1.not_le, h2.not_le,
        h3.not_le, h4.not_le, h5]
    · rintro ⟨k', g'⟩ h' hle
      fin_cases h' <;> simp_all <;> linarith
  rcases le_or_lt 50 p with h6 | h6
  · refine ⟨(50, 9/2), by norm_num [escalaChilena], h6, ?_, ?_⟩
    · simp [porcentajeANotaChilena, notaDesdeEscala, escalaChilena, h1.not_le, h2.not_le,
        h3.not_le, h4.not_le, h5.not_le, h6]
    · rintro ⟨k', g'⟩ h' hle
      fin_cases h' <;> simp_all <;> linarith
  rcases le_or_lt 40 p with h7 | h7
  · refine ⟨(40, 4), by norm_num [escalaChilena], h7, ?_, ?_⟩
    · simp [porcentajeANotaChilena, notaDesdeEscala, escalaChilena, h1.not_le, h2.not_le,
        h3.not_le, h4.not_le, h5.not_le, h6.not_le, h7]
    · rintro ⟨k', g'⟩ h' hle
      fin_cases h' <;> simp_all <;> linarith
  rcases le_or_lt 30 p with h8 | h8
  · refine ⟨(30, 7/2), by norm_num [escalaChilena], h8, ?_, ?_⟩
    · simp [porcentajeANotaChilena, notaDesdeEscala, escalaChilena, h1.not_le, h2.not_le,
        h3.not_le, h4.not_le, h5.not_le, h6.not_le, h7.not_le, h8]
    · rintro ⟨k', g'⟩ h' hle
      fin_cases h' <;> simp_all <;> linarith
  rcases le_or_lt 20 p with h9 | h9
  · refine ⟨(20, 3), by norm_num [escalaChilena], h9, ?_, ?_⟩
    · simp [porcentajeANotaChilena, notaDesdeEscala, escalaChilena, h1.not_le, h2.not_le,
        h3.not_le, h4.not_le, h5.not_le, h6.not_le, h7.not_le, h8.not_le, h9]
    · rintro ⟨k', g'⟩ h' hle
      fin_cases h' <;> simp_all <;> linarith
  rcases le_or_lt 10 p with h10 | h10
  · refine ⟨(10, 2), by norm_num [escalaChilena], h10, ?_, ?_⟩
    · simp [porcentajeANotaChilena, notaDesdeEscala, escalaChilena, h1.not_le, h2.not_le,
        h3.not_le, h4.not_le, h5.not_le, h6.not_le, h7.not_le, h8.not_le, h9.not_le, h10]
    · rintro ⟨k', g'⟩ h' hle
      fin_cases h' <;> simp_all <;> linarith
  · refine ⟨(0, 1), by norm_num [escalaChilena], h0, ?_, ?_⟩
    · simp [porcentajeANotaChilena, notaDesdeEscala, escalaChilena, h1.not_le, h2.not_le,
        h3.not_le, h4.not_le, h5.not_le, h6.not_le, h7.not_le, h8.not_le, h9.not_le,
        h10.not_le, h0]
    · rintro ⟨k', g'⟩ h' hle
      fin_cases h' <;> simp_all <;> linarith

/-- Witness for C2: the converter at the concrete percentage `65`. -/
theorem porcentajeANotaChilena_greatest_key_witness :
    (0:ℚ) ≤ 65 ∧ (65:ℚ) ≤ 100 ∧
      ((∃ par ∈ escalaChilena, par.1 ≤ 65 ∧ porcentajeANotaChilena 65 = par.2 ∧
          ∀ par' ∈ escalaChilena, par'.1 ≤ 65 → par'.1 ≤ par.1) ∧
        porcentajeANotaChilena 100 = 7 ∧ porcentajeANotaChilena 0 = 1 ∧
        porcentajeANotaChilena 65 = 5 ∧
        calcularNotaEscalaChilena 65 = porcentajeANotaChilena 65) :=
  ⟨by norm_num, by norm_num,
    porcentajeANotaChilena_greatest_key 65 (by norm_num) (by norm_num)⟩

/-! ## Helper lemmas -/

/-- Folding `acc + f x` from an initial value sums the mapped list. -/
theorem foldl_add_map {α : Type} (f : α → ℚ) :
    ∀ (l : List α) (a : ℚ), l.foldl (fun acc x => acc + f x) a = a + (l.map f).sum
  | [], a => by simp
  | x :: xs, a => by
    simp [foldl_add_map f xs (a + f x), add_assoc]

/-- `puntuacionTotalDe` is the sum of the weighted contributions. -/
theorem puntuacionTotalDe_eq_sum (criterios : List CriterioEvaluado) :
    puntuacionTotalDe criterios = (criterios.map (fun c => c.puntuacionPonderada)).sum := by
  simpa using foldl_add_map (fun c : CriterioEvaluado => c.puntuacionPonderada) criterios 0

/-- `notaTotalRubrica` is the sum of the matched weighted grades. -/
theorem notaTotalRubrica_eq_sum (rubrica : List CriterioRubrica)
    (resultados : List ResultadoCriterio) :
    notaTotalRubrica rubrica resultados =
      (resultados.map (contribucionNota rubrica)).sum := by
  unfold notaTotalRubrica
  simpa using foldl_add_map (contribucionNota rubrica) resultados 0

/-- `porcentajePonderadoRubrica` is the sum of the matched weighted scores. -/
theorem porcentajePonderadoRubrica_eq_sum (rubrica : List CriterioRubrica)
    (resultados : List ResultadoCriterio) :
    porcentajePonderadoRubrica rubrica resultados =
      (resultados.map (contribucionPuntuacion rubrica)).sum := by
  unfold porcentajePonderadoRubrica
  simpa using foldl_add_map (contribucionPuntuacion rubrica) resultados 0

/-- The fallback result always has score in `[0, 100]` and grade in
`[1, 7]`. -/
theorem generateFallbackEvaluation_bounds (response nombre : String) :
    0 ≤ (generateFallbackEvaluation response nombre).puntuacion ∧
    (generateFallbackEvaluation response nombre).puntuacion ≤ 100 ∧
    1 ≤ (generateFallbackEvaluation response nombre).nota ∧
    (generateFallbackEvaluation response nombre).nota ≤ 7 := by
  unfold generateFallbackEvaluation puntuacionFallback
  dsimp only
  split_ifs <;> norm_num

/-- A result accepted by the validation step is clamped into range. -/
theorem validarDatosEvaluacion_bounds (data : Json) (nombre : String)
    (r : ResultadoCriterio) (h : validarDatosEvaluacion data nombre = some r) :
    0 ≤ r.puntuacion ∧ r.puntuacion ≤ 100 ∧ 1 ≤ r.nota ∧ r.nota ≤ 7 := by
  unfold validarDatosEvaluacion at h
  split at h
  · rename_i p n retro ev sug hp hn hretro hev hsug
    cases h
    refine ⟨le_max_left 0 _, ?_, le_max_left 1 _, ?_⟩
    · exact max_le (by norm_num) (min_le_left 100 _)
    · exact max_le (by norm_num) (min_le_left 7 _)
  · exact absurd h (by simp)

/-- Accumulator form of the batch accounting loop. -/
theorem evaluarTodos_foldl (runEval : Estudiante → Except String EvaluacionKedro) :
    ∀ (orden : List Estudiante) (s : List (String × EvaluacionKedro)) (f : List String),
      orden.foldl (fun acc est => registrarResultado acc (evaluarEstudiante runEval est))
        (s, f) =
      (s ++ (evaluarTodos runEval orden).1, f ++ (evaluarTodos runEval orden).2)
  | [], s, f => by simp [evaluarTodos]
  | est :: resto, s, f => by
    cases h : runEval est with
    | ok ev =>
      have hr : ∀ (s' : List (String × EvaluacionKedro)) (f' : List String),
          registrarResultado (s', f') (evaluarEstudiante runEval est) =
            (s' ++ [(est.nombre, ev)], f') := by
        intro s' f'
        simp [registrarResultado, evaluarEstudiante, h]
      have hcab : evaluarTodos runEval (est :: resto) =
          ([(est.nombre, ev)] ++ (evaluarTodos runEval resto).1,
            (evaluarTodos runEval resto).2) := by
        show (est :: resto).foldl
            (fun acc est => registrarResultado acc (evaluarEstudiante runEval est))
            ([], []) = _
        simp only [List.foldl_cons, hr, List.nil_append]
        rw [evaluarTodos_foldl runEval resto [(est.nombre, ev)] []]
        simp
      simp only [List.foldl_cons, hr]
      rw [evaluarTodos_foldl runEval resto (s ++ [(est.nombre, ev)]) f, hcab]
      simp
    | error e =>
      have hr : ∀ (s' : List (String × EvaluacionKedro)) (f' : List String),
          registrarResultado (s', f') (evaluarEstudiante runEval est) =
            (s', f' ++ [est.nombre]) := by
        intro s' f'
        simp [registrarResultado, evaluarEstudiante, h]
      have hcab : evaluarTodos runEval (est :: resto) =
          ((evaluarTodos runEval resto).1,
            [est.nombre] ++ (evaluarTodos runEval resto).2) := by
        show (est :: resto).foldl
            (fun acc est => registrarResultado acc (evaluarEstudiante runEval est))
            ([], []) = _
        simp only [List.foldl_cons, hr, List.nil_append]
        rw [evaluarTodos_foldl runEval resto [] [est.nombre]]
        simp
      simp only [List.foldl_cons, hr]
      rw [evaluarTodos_foldl runEval resto s (f ++ [est.nombre]), hcab]
      simp

/-- Characterisation of `evaluarTodos`: the successes are exactly the units
whose evaluation call returned, in visiting order, and the failures are
exactly the units whose call raised, in visiting order. -/
theorem evaluarTodos_carac (runEval : Estudiante → Except String EvaluacionKedro) :
    ∀ orden : List Estudiante,
      evaluarTodos runEval orden =
        (orden.filterMap (fun est =>
            ((runEval est).toOption).map (fun ev => (est.nombre, ev))),
         orden.filterMap (fun est =>
            if ((runEval est).toOption).isSome then none else some est.nombre))
  | [] => by simp [evaluarTodos]
  | est :: resto => by
    have ih := evaluarTodos_carac runEval resto
    cases h : runEval est with
    | ok ev =>
      have hcab : evaluarTodos runEval (est :: resto) =
          ([(est.nombre, ev)] ++ (evaluarTodos runEval resto).1,
            (evaluarTodos runEval resto).2) := by
        show (est :: resto).foldl
            (fun acc est => registrarResultado acc (evaluarEstudiante runEval est))
            ([], []) = _
        simp only [List.foldl_cons]
        have hr : registrarResultado ([], []) (evaluarEstudiante runEval est) =
            ([(est.nombre, ev)], []) := by
          simp [registrarResultado, evaluarEstudiante, h]
        rw [hr, evaluarTodos_foldl runEval resto [(est.nombre, ev)] []]
        simp
      rw [hcab, ih]
      simp [List.filterMap_cons, h, Except.toOption]
    | error e =>
      have hcab : evaluarTodos runEval (est :: resto) =
          ((evaluarTodos runEval resto).1,
            [est.nombre] ++ (evaluarTodos runEval resto).2) := by
        show (est :: resto).foldl
            (fun acc est => registrarResultado acc (evaluarEstudiante runEval est))
            ([], []) = _
        simp only [List.foldl_cons]
        have hr : registrarResultado ([], []) (evaluarEstudiante runEval est) =
            ([], [est.nombre]) := by
          simp [registrarResultado, evaluarEstudiante, h]
        rw [hr, evaluarTodos_foldl runEval resto [] [est.nombre]]
        simp
      rw [hcab, ih]
      simp [List.filterMap_cons, h, Except.toOption]

/-- The names of the successes plus the failures are a permutation of the
visited roster's names. -/
theorem evaluarTodos_nombres (runEval : Estudiante → Except String EvaluacionKedro) :
    ∀ orden : List Estudiante,
      ((evaluarTodos runEval orden).1.map Prod.fst ++ (evaluarTodos runEval orden).2).Perm
        (orden.map (fun est => est.nombre))
  | [] => by simp [evaluarTodos]
  | est :: resto => by
    have ih := evaluarTodos_nombres runEval resto
    cases h : runEval est with
    | ok ev =>
      have hcab : evaluarTodos runEval (est :: resto) =
          ([(est.nombre, ev)] ++ (evaluarTodos runEval resto).1,
            (evaluarTodos runEval resto).2) := by
        show (est :: resto).foldl
            (fun acc est => registrarResultado acc (evaluarEstudiante runEval est))
            ([], []) = _
        simp only [List.foldl_cons]
        have hr : registrarResultado ([], []) (evaluarEstudiante runEval est) =
            ([(est.nombre, ev)], []) := by
          simp [registrarResultado, evaluarEstudiante, h]
        rw [hr, evaluarTodos_foldl runEval resto [(est.nombre, ev)] []]
        simp
      rw [hcab]
      simpa using ih.cons est.nombre
    | error e =>
      have hcab : evaluarTodos runEval (est :: resto) =
          ((evaluarTodos runEval resto).1,
            [est.nombre] ++ (evaluarTodos runEval resto).2) := by
        show (est :: resto).foldl
            (fun acc est => registrarResultado acc (evaluarEstudiante runEval est))
            ([], []) = _
        simp only [List.foldl_cons]
        have hr : registrarResultado ([], []) (evaluarEstudiante runEval est) =
            ([], [est.nombre]) := by
          simp [registrarResultado, evaluarEstudiante, h]
        rw [hr, evaluarTodos_foldl runEval resto [] [est.nombre]]
        simp
      rw [hcab]
      refine (List.Perm.trans ?_ (ih.cons est.nombre))
      simp only [List.map_append]
      exact List.perm_middle

/-- The running minimum is below its seed. -/
theorem minimoLista_le_seed : ∀ (xs : List ℚ) (x : ℚ), minimoLista x xs ≤ x
  | [], x => le_refl x
  | y :: ys, x => by
    have := minimoLista_le_seed ys (min x y)
    calc minimoLista x (y :: ys) = minimoLista (min x y) ys := rfl
      _ ≤ min x y := this
      _ ≤ x := min_le_left x y

/-- The running minimum is below every member of the list. -/
theorem minimoLista_le_mem : ∀ (xs : List ℚ) (x y : ℚ), y ∈ xs → minimoLista x xs ≤ y
  | z :: zs, x, y, hy => by
    rcases List.mem_cons.mp hy with rfl | hy'
    · calc minimoLista x (y :: zs) = minimoLista (min x y) zs := rfl
        _ ≤ min x y := minimoLista_le_seed zs (min x y)
        _ ≤ y := min_le_right x y
    · exact minimoLista_le_mem zs (min x z) y hy'

/-- The running maximum is above its seed. -/
theorem le_maximoLista_seed : ∀ (xs : List ℚ) (x : ℚ), x ≤ maximoLista x xs
  | [], x => le_refl x
  | y :: ys, x => by
    have := le_maximoLista_seed ys (max x y)
    calc x ≤ max x y := le_max_left x y
      _ ≤ maximoLista (max x y) ys := this
      _ = maximoLista x (y :: ys) := rfl

/-- The running maximum is above every member of the list. -/
theorem le_maximoLista_mem : ∀ (xs : List ℚ) (x y : ℚ), y ∈ xs → y ≤ maximoLista x xs
  | z :: zs, x, y, hy => by
    rcases List.mem_cons.mp hy with rfl | hy'
    · calc y ≤ max x y := le_max_right x y
        _ ≤ maximoLista (max x y) zs := le_maximoLista_seed zs (max x y)
        _ = maximoLista x (y :: zs) := rfl
    · exact le_maximoLista_mem zs (max x z) y hy'

/-- A list with a member failing the predicate filters to a strictly shorter
list. -/
theorem filter_length_lt_of_mem_not {α : Type} (p : α → Bool) :
    ∀ (l : List α) (a : α), a ∈ l → p a = false → (l.filter p).length < l.length
  | x :: xs, a, ha, hpa => by
    rcases List.mem_cons.mp ha with rfl | ha'
    · simp only [List.filter_cons, hpa]
      exact Nat.lt_succ_of_le (List.length_filter_le p xs)
    · by_cases hx : p x
      · simp only [List.filter_cons, hx, if_true, List.length_cons]
        exact Nat.succ_lt_succ (filter_length_lt_of_mem_not p xs a ha' hpa)
      · simp only [List.filter_cons, hx, if_false]
        exact Nat.lt_trans (filter_length_lt_of_mem_not p xs a ha' hpa) (Nat.lt_succ_self _)

/-! ## Claim C1 -/

/-- Counterexample to C1 as stated: with a one-criterion rubric of weight
1.0 and a criterion result of score 85 and grade 6.1 (the values the
fallback engine itself produces for a positive response),
`RubricaEvaluator.evaluate_repository` returns final grade 6.1 — the
weighted sum of already-converted grades — whereas the claimed
score-times-weight percentage rule followed by the stepped conversion gives
6.0. -/
theorem notaFinalRubrica_suma_notas_cex :
    notaFinalRubrica [⟨"Criterio A", 1⟩]
        [⟨"Criterio A", 85, 61/10, "retro", [], []⟩] = 61/10 ∧
    porcentajeANotaChilena (porcentajePonderadoRubrica [⟨"Criterio A", 1⟩]
        [⟨"Criterio A", 85, 61/10, "retro", [], []⟩]) = 6 ∧
    notaFinalRubrica [⟨"Criterio A", 1⟩]
        [⟨"Criterio A", 85, 61/10, "retro", [], []⟩] ≠
      porcentajeANotaChilena (porcentajePonderadoRubrica [⟨"Criterio A", 1⟩]
        [⟨"Criterio A", 85, 61/10, "retro", [], []⟩]) := by
  refine ⟨?_, ?_, ?_⟩ <;>
    norm_num [notaFinalRubrica, notaTotalRubrica, contribucionNota, round2, round_eq,
      porcentajePonderadoRubrica, contribucionPuntuacion, porcentajeANotaChilena,
      notaDesdeEscala, escalaChilena]

/-- C1 (amended): in the `KedroEvaluator` pipeline every criterion
contributes `score × weight` to the overall percentage — the weighted total
over the evaluated criteria is `Σ puntuacion × ponderacion` — and ten
equal-weight (0.10) criteria all scoring 80 aggregate to final percentage 80
and final grade 6.0; `RubricaEvaluator.evaluate_repository`, however,
computes its final figure as the rounded weighted sum of already-converted
per-criterion grades (`Σ nota × ponderacion`), not from a score-based
percentage. -/
theorem agregacion_kedro_por_puntaje_rubrica_por_nota :
    (∀ (rubrica : List CriterioKedro) (e : Estructura) (r : Reproducibilidad),
      puntuacionTotalDe (rubrica.map (fun c => evaluarCriterio c e r)) =
        (rubrica.map (fun c => puntuacionCriterio c.nombre e r * c.ponderacion)).sum) ∧
    (max 0 (min 100 (puntuacionTotalDe ((List.range 10).map (fun i =>
        criterioEvaluadoDe ("C" ++ toString i) (1/10) 80 [] "")))) = 80 ∧
      porcentajeANotaChilena 80 = 6) ∧
    (∀ (rubrica : List CriterioRubrica) (resultados : List ResultadoCriterio),
      notaFinalRubrica rubrica resultados =
        round2 ((resultados.map (contribucionNota rubrica)).sum)) ∧
    (∀ (rubrica : List CriterioRubrica) (r : ResultadoCriterio)
        (c : CriterioRubrica),
      rubrica.find? (fun c' => c'.nombre = r.criterio) = some c →
      contribucionNota rubrica r = r.nota * c.ponderacion) := by
  refine ⟨?_, ⟨?_, ?_⟩, ?_, ?_⟩
  case refine_2 =>
    norm_num [puntuacionTotalDe, criterioEvaluadoDe, List.range_succ]
  case refine_3 =>
    norm_num [porcentajeANotaChilena, notaDesdeEscala, escalaChilena]
  · intro rubrica e r
    rw [puntuacionTotalDe_eq_sum, List.map_map]
    rfl
  · intro rubrica resultados
    rw [notaFinalRubrica, notaTotalRubrica_eq_sum]
  · intro rubrica r c h
    simp [contribucionNota, h]

/-- Witness for the amended C1: the hypothesis-bearing last conjunct at a
concrete rubric and result. -/
theorem agregacion_kedro_por_puntaje_rubrica_por_nota_witness :
    ([⟨"Criterio A", (1:ℚ)⟩] : List CriterioRubrica).find?
        (fun c' => c'.nombre = (⟨"Criterio A", 85, 61/10, "retro", [], []⟩ :
          ResultadoCriterio).criterio) = some ⟨"Criterio A", 1⟩ ∧
    contribucionNota [⟨"Criterio A", 1⟩]
        ⟨"Criterio A", 85, 61/10, "retro", [], []⟩ = (61/10 : ℚ) * 1 :=
  ⟨by simp,
    agregacion_kedro_por_puntaje_rubrica_por_nota.2.2.2 [⟨"Criterio A", 1⟩]
      ⟨"Criterio A", 85, 61/10, "retro", [], []⟩ ⟨"Criterio A", 1⟩ (by simp)⟩

/-! ## Claim C3 -/

/-- C3: for every decoder outcome and every raw backend response text,
parsing is total (never raises) and the returned criterion result has score
in `[0, 100]` and grade in `[1.0, 7.0]`; every parse or validation failure
is absorbed by the fallback path. -/
theorem parseEvaluationResponse_siempre_acotado (loads : String → Option Json)
    (response nombre : String) :
    0 ≤ (parseEvaluationResponse loads response nombre).puntuacion ∧
    (parseEvaluationResponse loads response nombre).puntuacion ≤ 100 ∧
    1 ≤ (parseEvaluationResponse loads response nombre).nota ∧
    (parseEvaluationResponse loads response nombre).nota ≤ 7 := by
  unfold parseEvaluationResponse
  split
  · exact generateFallbackEvaluation_bounds response nombre
  · split
    · exact generateFallbackEvaluation_bounds response nombre
    · split
      · exact generateFallbackEvaluation_bounds response nombre
      · rename_i resultado hv
        exact validarDatosEvaluacion_bounds _ nombre resultado hv

/-! ## Claim C4 -/

/-- Counterexample to C4 as stated: the raw text `"bueno"` contains no
positive keyword and no negative keyword, so the claim predicts the neutral
fallback score 60, but the source's middle quality tier
(`['bueno', 'bien', 'adecuado', 'correcto']`) assigns 70. -/
theorem puntuacionFallback_bueno_cex :
    (generateFallbackEvaluation "bueno" "Criterio").puntuacion = 70 ∧
    contienePalabra (pyLower "bueno") palabrasPositivas = false ∧
    contienePalabra (pyLower "bueno") palabrasNegativas = false ∧
    (70 : ℤ) ≠ 60 := by
  refine ⟨by decide, by decide, by decide, by decide⟩

/-- C4 (amended): the fallback score is 85 when a positive keyword appears
in the lowercased raw text; otherwise 70 when a middle-quality keyword
(`bueno`, `bien`, `adecuado`, `correcto`) appears; otherwise 30 when a
negative keyword appears; otherwise 60.  No other fallback score is
possible. -/
theorem puntuacionFallback_cuatro_niveles (response nombre : String) :
    (contienePalabra (pyLower response) palabrasPositivas = true →
      (generateFallbackEvaluation response nombre).puntuacion = 85) ∧
    (contienePalabra (pyLower response) palabrasPositivas = false →
      contienePalabra (pyLower response) palabrasBuenas = true →
      (generateFallbackEvaluation response nombre).puntuacion = 70) ∧
    (contienePalabra (pyLower response) palabrasPositivas = false →
      contienePalabra (pyLower response) palabrasBuenas = false →
      contienePalabra (pyLower response) palabrasNegativas = true →
      (generateFallbackEvaluation response nombre).puntuacion = 30) ∧
    (contienePalabra (pyLower response) palabrasPositivas = false →
      contienePalabra (pyLower response) palabrasBuenas = false →
      contienePalabra (pyLower response) palabrasNegativas = false →
      (generateFallbackEvaluation response nombre).puntuacion = 60) := by
  refine ⟨?_, ?_, ?_, ?_⟩
  · intro h1
    simp [generateFallbackEvaluation, puntuacionFallback, h1]
  · intro h1 h2
    simp [generateFallbackEvaluation, puntuacionFallback, h1, h2]
  · intro h1 h2 h3
    simp [generateFallbackEvaluation, puntuacionFallback, h1, h2, h3]
  · intro h1 h2 h3
    simp [generateFallbackEvaluation, puntuacionFallback, h1, h2, h3]

/-- Witness for the amended C4: the four keyword tiers exercised at
concrete responses. -/
theorem puntuacionFallback_cuatro_niveles_witness :
    contienePalabra (pyLower "excelente trabajo") palabrasPositivas = true ∧
    (generateFallbackEvaluation "excelente trabajo" "C").puntuacion = 85 ∧
    contienePalabra (pyLower "bueno") palabrasPositivas = false ∧
    contienePalabra (pyLower "bueno") palabrasBuenas = true ∧
    (generateFallbackEvaluation "bueno" "C").puntuacion = 70 ∧
    (generateFallbackEvaluation "hay un error" "C").puntuacion = 30 ∧
    (generateFallbackEvaluation "zzz" "C").puntuacion = 60 :=
  ⟨by decide,
    (puntuacionFallback_cuatro_niveles "excelente trabajo" "C").1 (by decide),
    by decide, by decide,
    (puntuacionFallback_cuatro_niveles "bueno" "C").2.1 (by decide) (by decide),
    (puntuacionFallback_cuatro_niveles "hay un error" "C").2.2.1 (by decide) (by decide)
      (by decide),
    (puntuacionFallback_cuatro_niveles "zzz" "C").2.2.2 (by decide) (by decide) (by decide)⟩

/-! ## Claim C5 -/

/-- Counterexample to C5 as stated: a neutral response gets fallback score
60, whose stepped conversion is 5.0, but the fallback grade is the
continuous `1.0 + (60/100)·6.0 = 4.6`. -/
theorem notaFallback_no_escalonada_cex :
    (generateFallbackEvaluation "zzz" "Criterio").puntuacion = 60 ∧
    (generateFallbackEvaluation "zzz" "Criterio").nota = 23/5 ∧
    porcentajeANotaChilena 60 = 5 ∧
    (generateFallbackEvaluation "zzz" "Criterio").nota ≠
      porcentajeANotaChilena ((generateFallbackEvaluation "zzz" "Criterio").puntuacion : ℚ) := by
  have hp : (generateFallbackEvaluation "zzz" "Criterio").puntuacion = 60 := by decide
  have hn : (generateFallbackEvaluation "zzz" "Criterio").nota =
      1 + (((generateFallbackEvaluation "zzz" "Criterio").puntuacion : ℚ) / 100) * 6 := rfl
  refine ⟨hp, ?_, by decide, ?_⟩
  · rw [hn, hp]; norm_num
  · rw [hn, hp]; norm_num [porcentajeANotaChilena, notaDesdeEscala, escalaChilena]

/-- C5 (amended): for every fallback evaluation the fallback grade is the
continuous conversion `1.0 + (score / 100) × 6.0` of the fallback score,
not the stepped lookup table. -/
theorem notaFallback_formula_continua (response nombre : String) :
    (generateFallbackEvaluation response nombre).nota =
      1 + (((generateFallbackEvaluation response nombre).puntuacion : ℚ) / 100) * 6 := rfl

/-! ## Claim C6 -/

/-- C6: a subject whose repository cannot be accessed at all receives the
synthetic evaluation with status `ERROR`, grade 1.0 and an explanatory
summary; the evaluator returns it as an ordinary value (the model is a total
function, so nothing is raised) and, as a unit of the batch, the subject
still completes as a success entry — the enclosing batch accounts for every
subject and records no failure for it. -/
theorem evaluacionError_sintetica (rubrica : List CriterioKedro)
    (repoUrl nombre err : String) (pareja : Option String) (ab : Bool) :
    evaluarProyecto (Except.error err) rubrica repoUrl nombre pareja ab =
      crearEvaluacionError repoUrl nombre err ∧
    (evaluarProyecto (Except.error err) rubrica repoUrl nombre pareja ab).estado = "ERROR" ∧
    (evaluarProyecto (Except.error err) rubrica repoUrl nombre pareja ab).notaFinal = 1 ∧
    (evaluarProyecto (Except.error err) rubrica repoUrl nombre pareja ab).resumenGeneral =
      "Error al evaluar: " ++ err ∧
    (∀ ests : List Estudiante,
      (evaluarTodos (fun e =>
        Except.ok (evaluarProyecto (Except.error err) rubrica e.repositorio e.nombre
          e.pareja ab)) ests).2 = [] ∧
      (evaluarTodos (fun e =>
        Except.ok (evaluarProyecto (Except.error err) rubrica e.repositorio e.nombre
          e.pareja ab)) ests).1.length = ests.length) := by
  refine ⟨rfl, rfl, rfl, rfl, ?_⟩
  intro ests
  rw [evaluarTodos_carac]
  constructor
  · simp [Except.toOption]
  · simp [Except.toOption]

/-! ## Claim C7 -/

/-- C7: for every roster and every visiting order of the units (sequential
input order or any completion order of the worker pool), the batch accounts
for every subject exactly once — the success and failure lists' names
together are a permutation of the roster's names, and their lengths add up
to the roster size.  One unit's exception is absorbed at the unit-of-work
boundary: it only ever adds that unit's name to the failure list. -/
theorem lote_contabiliza_cada_sujeto (runEval : Estudiante → Except String EvaluacionKedro)
    (estudiantes orden : List Estudiante) (h : orden.Perm estudiantes) :
    ((evaluarTodos runEval orden).1.map Prod.fst ++ (evaluarTodos runEval orden).2).Perm
      (estudiantes.map (fun est => est.nombre)) ∧
    (evaluarTodos runEval orden).1.length + (evaluarTodos runEval orden).2.length =
      estudiantes.length := by
  have h1 := (evaluarTodos_nombres runEval orden).trans (h.map (fun est => est.nombre))
  refine ⟨h1, ?_⟩
  have h2 := h1.length_eq
  simpa using h2

/-- Witness for C7: a two-subject roster visited in swapped (completion)
order, where the second subject's unit raises. -/
theorem lote_contabiliza_cada_sujeto_witness :
    ([⟨"Beto", none, "urlB"⟩, ⟨"Ana", none, "urlA"⟩] : List Estudiante).Perm
      [⟨"Ana", none, "urlA"⟩, ⟨"Beto", none, "urlB"⟩] ∧
    (((evaluarTodos (fun est =>
          if est.nombre = "Beto" then Except.error "excepcion"
          else Except.ok (crearEvaluacionError est.repositorio est.nombre "e"))
        [⟨"Beto", none, "urlB"⟩, ⟨"Ana", none, "urlA"⟩]).1.map Prod.fst ++
      (evaluarTodos (fun est =>
          if est.nombre = "Beto" then Except.error "excepcion"
          else Except.ok (crearEvaluacionError est.repositorio est.nombre "e"))
        [⟨"Beto", none, "urlB"⟩, ⟨"Ana", none, "urlA"⟩]).2).Perm
      (([⟨"Ana", none, "urlA"⟩, ⟨"Beto", none, "urlB"⟩] : List Estudiante).map
        (fun est => est.nombre))) ∧
    (evaluarTodos (fun est =>
        if est.nombre = "Beto" then Except.error "excepcion"
        else Except.ok (crearEvaluacionError est.repositorio est.nombre "e"))
      [⟨"Beto", none, "urlB"⟩, ⟨"Ana", none, "urlA"⟩]).1.length +
    (evaluarTodos (fun est =>
        if est.nombre = "Beto" then Except.error "excepcion"
        else Except.ok (crearEvaluacionError est.repositorio est.nombre "e"))
      [⟨"Beto", none, "urlB"⟩, ⟨"Ana", none, "urlA"⟩]).2.length =
      ([⟨"Ana", none, "urlA"⟩, ⟨"Beto", none, "urlB"⟩] : List Estudiante).length :=
  ⟨by decide,
    lote_contabiliza_cada_sujeto _
      [⟨"Ana", none, "urlA"⟩, ⟨"Beto", none, "urlB"⟩]
      [⟨"Beto", none, "urlB"⟩, ⟨"Ana", none, "urlA"⟩] (by decide)⟩

/-! ## Claim C10 -/

/-- C10: a subject whose per-subject evaluation call returns normally — in
particular one whose repository access failed and who therefore carries the
synthetic `ERROR` evaluation — lands in the successes list and is counted in
the batch statistics: in the evaluated total, inside the min/max grade range,
in the mean's nota list (the statistics are computed over every success),
and outside the `aprobados` count (hence among the `reprobados`); the
failures list holds exactly the subjects whose evaluation call raised. -/
theorem sujeto_error_contado_como_exito
    (runEval : Estudiante → Except String EvaluacionKedro) (orden : List Estudiante)
    (est : Estudiante) (ev : EvaluacionKedro)
    (hmem : est ∈ orden) (hok : runEval est = Except.ok ev)
    (herr : ev.estado = "ERROR") :
    ((est.nombre, ev) ∈ (evaluarTodos runEval orden).1) ∧
    (∃ st, generarEstadisticas (evaluarTodos runEval orden).1 = some st ∧
      st.totalEvaluados = (evaluarTodos runEval orden).1.length ∧
      st.notaMinima ≤ ev.notaFinal ∧ ev.notaFinal ≤ st.notaMaxima ∧
      st.notaPromedio =
        sumaLista ((evaluarTodos runEval orden).1.map (fun p => p.2.notaFinal)) /
          (((evaluarTodos runEval orden).1.map (fun p => p.2.notaFinal)).length : ℚ) ∧
      st.aprobados = ((evaluarTodos runEval orden).1.filter
        (fun p => p.2.estado = "APROBADO")).length ∧
      st.aprobados < st.totalEvaluados ∧
      1 ≤ st.reprobados) ∧
    ((evaluarTodos runEval orden).2 = orden.filterMap (fun e =>
      if ((runEval e).toOption).isSome then none else some e.nombre)) := by
  have hm : (est.nombre, ev) ∈ (evaluarTodos runEval orden).1 := by
    rw [evaluarTodos_carac]
    exact List.mem_filterMap.mpr ⟨est, hmem, by simp [hok, Except.toOption]⟩
  refine ⟨hm, ?_, by rw [evaluarTodos_carac]⟩
  rcases hsucc : (evaluarTodos runEval orden).1 with _ | ⟨p, resto⟩
  · rw [hsucc] at hm
    simp at hm
  · rw [hsucc] at hm
    have hnota : ev.notaFinal ∈ p.2.notaFinal :: resto.map (fun q => q.2.notaFinal) := by
      rcases List.mem_cons.mp hm with h | h
      · rw [← h]; exact List.mem_cons_self _ _
      · exact List.mem_cons_of_mem _ (List.mem_map.mpr ⟨(est.nombre, ev), h, rfl⟩)
    refine ⟨_, rfl, rfl, ?_, ?_, ?_, rfl, ?_, ?_⟩
    · rcases List.mem_cons.mp hnota with h | h
      · rw [h]; exact minimoLista_le_seed _ _
      · exact minimoLista_le_mem _ _ _ h
    · rcases List.mem_cons.mp hnota with h | h
      · rw [h]; exact le_maximoLista_seed _ _
      · exact le_maximoLista_mem _ _ _ h
    · simp [sumaLista]
    · show ((p :: resto).filter (fun q => q.2.estado = "APROBADO")).length <
        (p :: resto).length
      refine filter_length_lt_of_mem_not _ (p :: resto) (est.nombre, ev) hm ?_
      simp [herr]
    · show 1 ≤ (p :: resto).length -
        ((p :: resto).filter (fun q => q.2.estado = "APROBADO")).length
      have := filter_length_lt_of_mem_not
        (fun q : String × EvaluacionKedro => decide (q.2.estado = "APROBADO"))
        (p :: resto) (est.nombre, ev) hm (by simp [herr])
      omega

/-- Witness for C10: a one-subject roster whose repository access fails; the
subject is a success with the synthetic `ERROR` evaluation and appears in
the statistics. -/
theorem sujeto_error_contado_como_exito_witness :
    ((⟨"Ana", none, "urlA"⟩ : Estudiante) ∈ ([⟨"Ana", none, "urlA"⟩] : List Estudiante)) ∧
    ((fun _ : Estudiante => (Except.ok (crearEvaluacionError "urlA" "Ana" "falla") : Except String EvaluacionKedro))
        (⟨"Ana", none, "urlA"⟩ : Estudiante) =
      Except.ok (crearEvaluacionError "urlA" "Ana" "falla")) ∧
    (crearEvaluacionError "urlA" "Ana" "falla").estado = "ERROR" ∧
    (("Ana", crearEvaluacionError "urlA" "Ana" "falla") ∈
      (evaluarTodos (fun _ => (Except.ok (crearEvaluacionError "urlA" "Ana" "falla") : Except String EvaluacionKedro))
        [⟨"Ana", none, "urlA"⟩]).1) ∧
    (∃ st, generarEstadisticas
        (evaluarTodos (fun _ => (Except.ok (crearEvaluacionError "urlA" "Ana" "falla") : Except String EvaluacionKedro))
          [⟨"Ana", none, "urlA"⟩]).1 = some st ∧
      st.aprobados < st.totalEvaluados ∧ 1 ≤ st.reprobados) := by
  have h := sujeto_error_contado_como_exito
    (fun _ => (Except.ok (crearEvaluacionError "urlA" "Ana" "falla") : Except String EvaluacionKedro))
    [⟨"Ana", none, "urlA"⟩] ⟨"Ana", none, "urlA"⟩
    (crearEvaluacionError "urlA" "Ana" "falla") (by simp) rfl rfl
  refine ⟨by simp, rfl, rfl, h.1, ?_⟩
  rcases h.2.1 with ⟨st, hst, _, _, _, _, _, hlt, hrep⟩
  exact ⟨st, hst, hlt, hrep⟩

/-! ## Claim C8 -/

/-- C8: similarity is `|A ∩ B| / max(|A|, |B|)` over the lowercase word
sets, so a text with at least one word has self-similarity 1 and texts with
disjoint word sets have similarity 0; every candidate recorded by
`_find_text_similarities` has similarity above 0.5, and every alert of
`_detect_plagiarism_patterns` is a `plagio` alert of severity `alta` arising
from a candidate pair whose similarity exceeds 0.8. -/
theorem similitud_y_alertas_plagio :
    (∀ t : String, conjuntoPalabras t ≠ ∅ → similitud t t = 1) ∧
    (∀ t1 t2 : String, conjuntoPalabras t1 ∩ conjuntoPalabras t2 = ∅ →
      similitud t1 t2 = 0) ∧
    (∀ (entradas : List EntradaCriterio) (s : Similitud),
      s ∈ encontrarSimilitudes entradas → 1/2 < s.similarity) ∧
    (∀ (evals : List EvalRegistro) (a : Alerta),
      a ∈ detectarPatronesPlagio evals →
        a.tipo = "plagio" ∧ a.severidad = "alta" ∧
        ∃ grupo ∈ gruposCriterios evals, ∃ s ∈ encontrarSimilitudes grupo.2,
          4/5 < s.similarity ∧ a.estudiante = s.student1 ++ " y " ++ s.student2) := by
  refine ⟨?_, ?_, ?_, ?_⟩
  · intro t h
    have hc : (conjuntoPalabras t).card ≠ 0 := by
      simpa [Finset.card_eq_zero] using h
    unfold similitud
    rw [Finset.inter_self, max_self]
    exact div_self (by exact_mod_cast hc)
  · intro t1 t2 h
    unfold similitud
    rw [h]
    simp
  · intro entradas s hs
    unfold encontrarSimilitudes at hs
    rcases List.mem_filterMap.mp hs with ⟨par, _, hpf⟩
    dsimp only at hpf
    split_ifs at hpf with h1 h2
    · injection hpf with h3
      subst h3
      exact h2
  · intro evals a ha
    unfold detectarPatronesPlagio at ha
    rcases List.mem_flatMap.mp ha with ⟨grupo, hg, ha2⟩
    by_cases hlen : grupo.2.length < 2
    · rw [if_pos hlen] at ha2
      simp at ha2
    · rw [if_neg hlen] at ha2
      rcases List.mem_map.mp ha2 with ⟨s, hs, rfl⟩
      rcases List.mem_filter.mp hs with ⟨hs1, hs2⟩
      have hs3 : 4/5 < s.similarity := by simpa using hs2
      exact ⟨rfl, rfl, grupo, hg, s, hs1, hs3, rfl⟩

/-- Witness for C8: the hypothesis-bearing similarity conjuncts at the
concrete feedback texts of the specification's examples. -/
theorem similitud_y_alertas_plagio_witness :
    conjuntoPalabras "hola mundo" ≠ ∅ ∧
    similitud "hola mundo" "hola mundo" = 1 ∧
    conjuntoPalabras "a b c" ∩ conjuntoPalabras "x y z" = ∅ ∧
    similitud "a b c" "x y z" = 0 :=
  ⟨by decide, similitud_y_alertas_plagio.1 "hola mundo" (by decide),
    by decide, similitud_y_alertas_plagio.2.1 "a b c" "x y z" (by decide)⟩

/-! ## Claim C9 -/

/-- C9: the alert list returned by `generate_alerts` is sorted in
non-increasing severity order under the ranking
`critica (4) > alta (3) > media (2) > baja (1) >` unknown `(0)`, so a more
severe alert never appears after a less severe one. -/
theorem generarAlertas_ordenadas_por_severidad (evals : List EvalRegistro) :
    List.Pairwise (fun a b => severidadRango b.severidad ≤ severidadRango a.severidad)
      (generarAlertas evals) := by
  unfold generarAlertas
  refine List.Pairwise.imp ?_ (List.sorted_mergeSort ?_ ?_ _)
  · intro a b hab
    exact of_decide_eq_true hab
  · intro a b c hab hbc
    exact decide_eq_true (le_trans (of_decide_eq_true hbc) (of_decide_eq_true hab))
  · intro a b
    rcases le_total (severidadRango b.severidad) (severidadRango a.severidad) with h | h
    · simp [h]
    · simp [h]
